import Mathlib

/-!
Shallow embedding of `docs/ucp/examples/python/settlement.py` (PayOS UCP
settlement example client).

Modelling conventions:
* Python dicts with string keys are association lists `List (String × Json)`
  built in insertion order; a fresh key assignment appends at the end.
* JSON values are the inductive `Json`; floats are carried opaquely (the
  client never computes with them), so numeric payload fields are passed
  through as arbitrary `Json` values.
* `requests` responses are `HttpResponse` (status code and parsed body), and
  `response.raise_for_status()` is `raise_for_status`, which raises exactly
  for status codes in the 4xx/5xx range (400 ≤ code < 600), the documented
  behaviour of the requests library.
* Exceptions are `Except` errors carrying the message string.
* Client methods are state-passing: each takes the client value (`self`), the
  remote response it will observe, and returns the request it issued, the
  result, and the client value after the call.
* `wait_for_completion` observes the environment as `polls : Nat → SettlementRecord`,
  the parsed record returned by the i-th `get_settlement_status` call. Time is
  idealised: HTTP calls are instantaneous and only `time.sleep(2)` advances
  the wall clock, so the i-th poll happens at elapsed time `2 * i` seconds.
  The loop is instrumented with two observers that exist only to state
  claims: the number of `get_settlement_status` calls made and the total
  seconds slept.
-/

/-- JSON-like values: the shapes the example actually passes around. -/
inductive Json where
  | null : Json
  | str : String → Json
  | num : Int → Json
  | obj : List (String × Json) → Json

/-- A parsed HTTP response: status code and JSON body. -/
structure HttpResponse where
  status_code : Nat
  body : Json

/-- The error raised by `response.raise_for_status()`. -/
structure HttpError where
  status_code : Nat
deriving DecidableEq, Repr

/-- An HTTP request as the client assembles it. -/
structure Request where
  method : String
  url : String
  req_headers : List (String × String)
  body : Option (List (String × Json))

/-- `response.raise_for_status()` from the requests library: raises
`HTTPError` exactly when the status code is in the 4xx or 5xx range. -/
def raise_for_status (response : HttpResponse) : Except HttpError Unit :=
  if 400 ≤ response.status_code ∧ response.status_code < 600 then
    Except.error ⟨response.status_code⟩
  else
    Except.ok ()

/-- `response.raise_for_status(); return response.json()` — the tail shared
by every client method. -/
def http_result (response : HttpResponse) : Except HttpError Json :=
  match raise_for_status response with
  | Except.error e => Except.error e
  | Except.ok _ => Except.ok response.body

/-- The client: configuration set in `__init__` and read thereafter. -/
structure PayOSUCPClient where
  api_key : String
  base_url : String
  headers : List (String × String)
deriving DecidableEq, Repr

/-- `PayOSUCPClient.__init__`. -/
def PayOSUCPClient.init (api_key : String) (base_url : String) : PayOSUCPClient :=
  ⟨api_key, base_url,
    [("Authorization", "Bearer " ++ api_key),
     ("Content-Type", "application/json"),
     ("UCP-Agent", "PythonExample/2026-01-11")]⟩

/-- The payload built by `acquire_token`: the four mandatory fields, then
`metadata` appended only when the Python condition `if metadata:` holds,
i.e. when the argument is present and the dict is non-empty. -/
def acquire_token_payload (corridor : String) (amount : Json) (currency : String)
    (recipient : Json) (metadata : Option (List (String × Json))) :
    List (String × Json) :=
  let payload := [("corridor", Json.str corridor), ("amount", amount),
    ("currency", Json.str currency), ("recipient", recipient)]
  match metadata with
  | some m => if m.isEmpty then payload else payload ++ [("metadata", Json.obj m)]
  | none => payload

/-- The payload built by `settle`: `token`, then `idempotency_key` appended
only when the Python condition `if idempotency_key:` holds, i.e. when the
argument is present and the string is non-empty. -/
def settle_payload (token : String) (idempotency_key : Option String) :
    List (String × Json) :=
  let payload := [("token", Json.str token)]
  match idempotency_key with
  | some key => if key = "" then payload else payload ++ [("idempotency_key", Json.str key)]
  | none => payload

/-- `PayOSUCPClient.get_quote`. -/
def PayOSUCPClient.get_quote (self : PayOSUCPClient) (corridor : String)
    (amount : Json) (currency : String) (response : HttpResponse) :
    Request × Except HttpError Json × PayOSUCPClient :=
  (⟨"POST", self.base_url ++ "/v1/ucp/quote", self.headers,
     some [("corridor", Json.str corridor), ("amount", amount),
       ("currency", Json.str currency)]⟩,
   http_result response, self)

/-- `PayOSUCPClient.acquire_token`. -/
def PayOSUCPClient.acquire_token (self : PayOSUCPClient) (corridor : String)
    (amount : Json) (currency : String) (recipient : Json)
    (metadata : Option (List (String × Json))) (response : HttpResponse) :
    Request × Except HttpError Json × PayOSUCPClient :=
  (⟨"POST", self.base_url ++ "/v1/ucp/tokens", self.headers,
     some (acquire_token_payload corridor amount currency recipient metadata)⟩,
   http_result response, self)

/-- `PayOSUCPClient.settle`. -/
def PayOSUCPClient.settle (self : PayOSUCPClient) (token : String)
    (idempotency_key : Option String) (response : HttpResponse) :
    Request × Except HttpError Json × PayOSUCPClient :=
  (⟨"POST", self.base_url ++ "/v1/ucp/settle", self.headers,
     some (settle_payload token idempotency_key)⟩,
   http_result response, self)

/-- `PayOSUCPClient.get_settlement_status`. -/
def PayOSUCPClient.get_settlement_status (self : PayOSUCPClient)
    (settlement_id : String) (response : HttpResponse) :
    Request × Except HttpError Json × PayOSUCPClient :=
  (⟨"GET", self.base_url ++ "/v1/ucp/settlements/" ++ settlement_id,
     self.headers, none⟩,
   http_result response, self)

/-- The fields of the settlement record that `wait_for_completion` reads. -/
structure SettlementRecord where
  status : String
  failure_reason : Option String
  transfer_id : Option String
  completed_at : Option String
deriving DecidableEq, Repr

/-- How a Python f-string renders `status.get('failure_reason')`: the string
itself when present, the text `None` when the key is absent. -/
def pyStr (o : Option String) : String :=
  match o with
  | some s => s
  | none => "None"

/-- The `while` loop of `wait_for_completion`, entered with `i` polls already
behind us (so the wall clock reads `2 * i` seconds). Returns the loop's
outcome together with two observers: the number of `get_settlement_status`
calls performed and the total seconds slept. -/
def wait_aux (polls : Nat → SettlementRecord) (maxWait : Int) (i : Nat) :
    Except String SettlementRecord × Nat × Nat :=
  if h : (2 * (i : Int)) < maxWait then
    let status := polls i
    if status.status = "completed" then
      (Except.ok status, 1, 0)
    else if status.status = "failed" then
      (Except.error ("Settlement failed: " ++ pyStr status.failure_reason), 1, 0)
    else
      let rest := wait_aux polls maxWait (i + 1)
      (rest.1, rest.2.1 + 1, rest.2.2 + 2)
  else
    (Except.error "Settlement timed out", 0, 0)
termination_by (maxWait - 2 * (i : Int)).toNat
decreasing_by
  simp_wf
  omega

/-- `PayOSUCPClient.wait_for_completion`, as a function of the observed
status sequence and the deadline (Python default: 120 seconds). -/
def wait_for_completion (polls : Nat → SettlementRecord) (maxWait : Int) :
    Except String SettlementRecord × Nat × Nat :=
  wait_aux polls maxWait 0

/-- The client method wrapping the loop; the client state passes through. -/
def PayOSUCPClient.wait_for_completion (self : PayOSUCPClient)
    (polls : Nat → SettlementRecord) (maxWait : Int) :
    (Except String SettlementRecord × Nat × Nat) × PayOSUCPClient :=
  (wait_aux polls maxWait 0, self)

/-- `create_pix_recipient`: the four mandatory fields, then `tax_id`
appended only when the Python condition `if tax_id:` holds, i.e. when the
argument is present and the string is non-empty. -/
def create_pix_recipient (pix_key : String) (pix_key_type : String)
    (name : String) (tax_id : Option String) : List (String × Json) :=
  let recipient := [("type", Json.str "pix"), ("pix_key", Json.str pix_key),
    ("pix_key_type", Json.str pix_key_type), ("name", Json.str name)]
  match tax_id with
  | some t => if t = "" then recipient else recipient ++ [("tax_id", Json.str t)]
  | none => recipient

/-- `create_spei_recipient`: the three mandatory fields, then `rfc`
appended only when the Python condition `if rfc:` holds. -/
def create_spei_recipient (clabe : String) (name : String)
    (rfc : Option String) : List (String × Json) :=
  let recipient := [("type", Json.str "spei"), ("clabe", Json.str clabe),
    ("name", Json.str name)]
  match rfc with
  | some r => if r = "" then recipient else recipient ++ [("rfc", Json.str r)]
  | none => recipient

/-- A record that stays pending (used as a concrete poll sequence). -/
def pendingRec : SettlementRecord := ⟨"pending", none, none, none⟩

/-- A concrete completed record. -/
def completedRec : SettlementRecord := ⟨"completed", none, some "tr_1", some "t0"⟩

/-- A concrete failed record with a failure reason. -/
def failedRec : SettlementRecord := ⟨"failed", some "insufficient_funds", none, none⟩

/-! ### Unfolding lemmas for the polling loop -/

lemma wait_aux_timeout_step (polls : Nat → SettlementRecord) (maxWait : Int)
    (i : Nat) (h : ¬ (2 * (i : Int)) < maxWait) :
    wait_aux polls maxWait i = (Except.error "Settlement timed out", 0, 0) := by
  rw [wait_aux.eq_def, dif_neg h]

lemma wait_aux_completed_step (polls : Nat → SettlementRecord) (maxWait : Int)
    (i : Nat) (h : (2 * (i : Int)) < maxWait) (hc : (polls i).status = "completed") :
    wait_aux polls maxWait i = (Except.ok (polls i), 1, 0) := by
  rw [wait_aux.eq_def, dif_pos h]
  simp [hc]

lemma wait_aux_failed_step (polls : Nat → SettlementRecord) (maxWait : Int)
    (i : Nat) (h : (2 * (i : Int)) < maxWait)
    (hf : (polls i).status = "failed") :
    wait_aux polls maxWait i =
      (Except.error ("Settlement failed: " ++ pyStr (polls i).failure_reason), 1, 0) := by
  rw [wait_aux.eq_def, dif_pos h]
  simp [hf]

lemma wait_aux_pending_step (polls : Nat → SettlementRecord) (maxWait : Int)
    (i : Nat) (h : (2 * (i : Int)) < maxWait)
    (hnc : (polls i).status ≠ "completed") (hnf : (polls i).status ≠ "failed") :
    wait_aux polls maxWait i =
      ((wait_aux polls maxWait (i + 1)).1,
       (wait_aux polls maxWait (i + 1)).2.1 + 1,
       (wait_aux polls maxWait (i + 1)).2.2 + 2) := by
  rw [wait_aux.eq_def, dif_pos h]
  simp only [if_neg hnc, if_neg hnf]

/-! ### Induction helpers for the polling loop -/

/-- If every poll from index `i` on that happens before the deadline is
non-terminal, the loop times out. Fuel-indexed form for induction. -/
lemma wait_aux_timeout_of_nonterminal (polls : Nat → SettlementRecord)
    (maxWait : Int) :
    ∀ (n i : Nat), (maxWait - 2 * (i : Int)).toNat ≤ n →
      (∀ j, i ≤ j → (2 * (j : Int)) < maxWait →
        (polls j).status ≠ "completed" ∧ (polls j).status ≠ "failed") →
      (wait_aux polls maxWait i).1 = Except.error "Settlement timed out" := by
  intro n
  induction n with
  | zero =>
    intro i hle _
    have h : ¬ (2 * (i : Int)) < maxWait := by omega
    rw [wait_aux_timeout_step polls maxWait i h]
  | succ n ih =>
    intro i hle hall
    by_cases h : (2 * (i : Int)) < maxWait
    · obtain ⟨hnc, hnf⟩ := hall i le_rfl h
      rw [wait_aux_pending_step polls maxWait i h hnc hnf]
      exact ih (i + 1) (by push_cast; omega)
        (fun j hj hjd => hall j (by omega) hjd)
    · rw [wait_aux_timeout_step polls maxWait i h]

/-- Skipping a non-terminal prefix does not change the loop's outcome:
if every poll from `k` up to (excluding) `i` is non-terminal and the
`i`-th poll is still before the deadline, the loop started at `k` yields
the same result component as the loop started at `i`. -/
lemma wait_aux_skip_to (polls : Nat → SettlementRecord) (maxWait : Int)
    (i : Nat) (hd : (2 * (i : Int)) < maxWait) :
    ∀ d k, k + d = i →
      (∀ j, k ≤ j → j < i →
        (polls j).status ≠ "completed" ∧ (polls j).status ≠ "failed") →
      (wait_aux polls maxWait k).1 = (wait_aux polls maxWait i).1 := by
  intro d
  induction d with
  | zero =>
    intro k hk _
    have : k = i := by omega
    rw [this]
  | succ d ih =>
    intro k hk hall
    have hki : k < i := by omega
    have hkd : (2 * (k : Int)) < maxWait := by
      have : (k : Int) < (i : Int) := by exact_mod_cast hki
      omega
    obtain ⟨hnc, hnf⟩ := hall k le_rfl hki
    rw [wait_aux_pending_step polls maxWait k hkd hnc hnf]
    exact ih (k + 1) (by omega) (fun j hj hji => hall j (by omega) hji)

/-- No failure message collides with the timeout message. -/
lemma settlement_failed_ne_timed_out (s : String) :
    "Settlement failed: " ++ s ≠ "Settlement timed out" := by
  intro h
  have h2 : ("Settlement failed: " : String).data ++ s.data =
      ("Settlement timed out" : String).data := by
    rw [← String.data_append, h]
  have h11 := congrArg (fun l => l[11]?) h2
  simp only [] at h11
  rw [List.getElem?_append_left (by decide)] at h11
  exact absurd h11 (by decide)

/-! ### Claim theorems: the polling loop -/

/-- C1: if no poll that happens before the wall-clock deadline returns
status `completed` or `failed`, `wait_for_completion` raises the timeout
error `Settlement timed out` — in particular it never returns a pending
record as success. -/
theorem wait_for_completion_times_out_when_never_terminal
    (polls : Nat → SettlementRecord) (maxWait : Int)
    (h : ∀ j : Nat, (2 * (j : Int)) < maxWait →
      (polls j).status ≠ "completed" ∧ (polls j).status ≠ "failed") :
    (wait_for_completion polls maxWait).1 = Except.error "Settlement timed out" :=
  wait_aux_timeout_of_nonterminal polls maxWait maxWait.toNat 0
    (by push_cast; omega) (fun j _ hjd => h j hjd)

/-- Witness for C1: a sequence that stays `pending` forever, with a
5-second deadline, times out. -/
theorem wait_for_completion_times_out_when_never_terminal_witness :
    (wait_for_completion (fun _ => pendingRec) 5).1 =
      Except.error "Settlement timed out" :=
  wait_for_completion_times_out_when_never_terminal (fun _ => pendingRec) 5
    (fun _ _ => show pendingRec.status ≠ "completed" ∧ pendingRec.status ≠ "failed"
      from ⟨by decide, by decide⟩)

/-- C2: if the polls return `pending`, `pending`, `completed` and the
deadline has not elapsed at the third poll (4 seconds in), the loop returns
the completed record, having made exactly 3 `get_settlement_status` calls
and slept exactly two 2-second intervals (4 seconds). -/
theorem wait_for_completion_pending_pending_completed
    (polls : Nat → SettlementRecord) (maxWait : Int)
    (h0 : (polls 0).status = "pending") (h1 : (polls 1).status = "pending")
    (h2 : (polls 2).status = "completed") (hd : 4 < maxWait) :
    wait_for_completion polls maxWait = (Except.ok (polls 2), 3, 4) := by
  have s0 := wait_aux_pending_step polls maxWait 0 (by push_cast; omega)
    (by rw [h0]; decide) (by rw [h0]; decide)
  have s1 := wait_aux_pending_step polls maxWait 1 (by push_cast; omega)
    (by rw [h1]; decide) (by rw [h1]; decide)
  have s2 := wait_aux_completed_step polls maxWait 2 (by push_cast; omega) h2
  unfold wait_for_completion
  rw [s0]
  simp [s1, s2]

/-- A concrete status sequence `[pending, pending, completed, ...]`. -/
def pollsPPC : Nat → SettlementRecord :=
  fun j => if j < 2 then pendingRec else completedRec

/-- Witness for C2: the concrete sequence, with the Python default
deadline of 120 seconds. -/
theorem wait_for_completion_pending_pending_completed_witness :
    wait_for_completion pollsPPC 120 = (Except.ok (pollsPPC 2), 3, 4) :=
  wait_for_completion_pending_pending_completed pollsPPC 120
    rfl rfl rfl (by decide)

/-- C3: if the first terminal poll (index `i`, still before the deadline)
returns status `failed`, `wait_for_completion` raises an error whose
message carries that record's `failure_reason`, and does not return
normally. -/
theorem wait_for_completion_failed_raises_reason
    (polls : Nat → SettlementRecord) (maxWait : Int) (i : Nat)
    (hprev : ∀ j, j < i →
      (polls j).status ≠ "completed" ∧ (polls j).status ≠ "failed")
    (hd : (2 * (i : Int)) < maxWait)
    (hf : (polls i).status = "failed") :
    (wait_for_completion polls maxWait).1 =
      Except.error ("Settlement failed: " ++ pyStr (polls i).failure_reason) := by
  have hskip := wait_aux_skip_to polls maxWait i hd i 0 (by omega)
    (fun j _ hj => hprev j hj)
  have hstep := wait_aux_failed_step polls maxWait i hd hf
  unfold wait_for_completion
  rw [hskip, hstep]

/-- A concrete status sequence `[pending, failed, ...]`. -/
def pollsPF : Nat → SettlementRecord :=
  fun j => if j = 0 then pendingRec else failedRec

/-- Witness for C3: one pending poll, then a failure whose reason is
`insufficient_funds`; the raised message carries that reason. -/
theorem wait_for_completion_failed_raises_reason_witness :
    (wait_for_completion pollsPF 10).1 =
      Except.error ("Settlement failed: " ++ pyStr (pollsPF 1).failure_reason) :=
  wait_for_completion_failed_raises_reason pollsPF 10 1
    (fun j hj => by
      have hj0 : j = 0 := by omega
      subst hj0
      exact ⟨by decide, by decide⟩)
    (by decide) (by decide)

/-- C9: with a deadline of at most 0 seconds, the deadline check fails
before the first poll: the loop raises the timeout error having made zero
`get_settlement_status` calls. -/
theorem wait_for_completion_nonpositive_deadline_no_poll
    (polls : Nat → SettlementRecord) (maxWait : Int) (h : maxWait ≤ 0) :
    wait_for_completion polls maxWait =
      (Except.error "Settlement timed out", 0, 0) := by
  unfold wait_for_completion
  exact wait_aux_timeout_step polls maxWait 0 (by push_cast; omega)

/-- Witness for C9: deadline 0, any sequence: immediate timeout, no polls. -/
theorem wait_for_completion_nonpositive_deadline_no_poll_witness :
    wait_for_completion (fun _ => completedRec) 0 =
      (Except.error "Settlement timed out", 0, 0) :=
  wait_for_completion_nonpositive_deadline_no_poll (fun _ => completedRec) 0
    (by decide)

/-- If some poll before the deadline is terminal, the loop does not end in
the timeout error: it stops at the first terminal poll instead. -/
lemma wait_aux_not_timeout_of_terminal (polls : Nat → SettlementRecord)
    (maxWait : Int)
    (hex : ∃ j : Nat, (2 * (j : Int)) < maxWait ∧
      ((polls j).status = "completed" ∨ (polls j).status = "failed")) :
    (wait_aux polls maxWait 0).1 ≠ Except.error "Settlement timed out" := by
  classical
  obtain ⟨hid, hiterm⟩ := Nat.find_spec hex
  have hprev : ∀ j, j < Nat.find hex →
      (polls j).status ≠ "completed" ∧ (polls j).status ≠ "failed" := by
    intro j hj
    have hjd : (2 * (j : Int)) < maxWait := by
      have : (j : Int) < ((Nat.find hex : Nat) : Int) := by exact_mod_cast hj
      omega
    have hmin := Nat.find_min hex hj
    constructor
    · intro hc; exact hmin ⟨hjd, Or.inl hc⟩
    · intro hf; exact hmin ⟨hjd, Or.inr hf⟩
  have hskip := wait_aux_skip_to polls maxWait (Nat.find hex) hid (Nat.find hex) 0
    (by omega) (fun j _ hj => hprev j hj)
  rw [hskip]
  rcases hiterm with hc | hf
  · rw [wait_aux_completed_step polls maxWait (Nat.find hex) hid hc]
    simp
  · rw [wait_aux_failed_step polls maxWait (Nat.find hex) hid hf]
    intro hcontr
    simp only [Except.error.injEq] at hcontr
    exact settlement_failed_ne_timed_out _ hcontr

/-- C10: the loop ends in the timeout error exactly when every poll made
before the deadline has a status other than `completed` and `failed`; any
other status value (pending or unknown) never terminates the loop. -/
theorem wait_for_completion_terminal_statuses
    (polls : Nat → SettlementRecord) (maxWait : Int) :
    (wait_for_completion polls maxWait).1 = Except.error "Settlement timed out" ↔
      ∀ j : Nat, (2 * (j : Int)) < maxWait →
        (polls j).status ≠ "completed" ∧ (polls j).status ≠ "failed" := by
  constructor
  · intro ht j hjd
    by_contra hterm
    refine wait_aux_not_timeout_of_terminal polls maxWait ⟨j, hjd, ?_⟩ ht
    rcases not_and_or.mp hterm with h | h
    · exact Or.inl (not_not.mp h)
    · exact Or.inr (not_not.mp h)
  · intro h
    exact wait_aux_timeout_of_nonterminal polls maxWait maxWait.toNat 0
      (by push_cast; omega) (fun j _ hjd => h j hjd)

/-! ### Claim theorems: recipient constructors and request payloads -/

/-- Lookup table for `create_pix_recipient`. -/
lemma create_pix_recipient_lookups (pk pkt nm : String) (tid : Option String) :
    (create_pix_recipient pk pkt nm tid).lookup "type" = some (Json.str "pix") ∧
    (create_pix_recipient pk pkt nm tid).lookup "pix_key" = some (Json.str pk) ∧
    (create_pix_recipient pk pkt nm tid).lookup "pix_key_type" = some (Json.str pkt) ∧
    (create_pix_recipient pk pkt nm tid).lookup "name" = some (Json.str nm) ∧
    (create_pix_recipient pk pkt nm tid).lookup "tax_id" =
      (match tid with
       | some t => if t = "" then none else some (Json.str t)
       | none => none) := by
  rcases tid with _ | t
  · exact ⟨rfl, rfl, rfl, rfl, rfl⟩
  · by_cases ht : t = ""
    · simp only [create_pix_recipient, if_pos ht]
      exact ⟨rfl, rfl, rfl, rfl, rfl⟩
    · simp only [create_pix_recipient, if_neg ht]
      exact ⟨rfl, rfl, rfl, rfl, rfl⟩

/-- Lookup table for `create_spei_recipient`. -/
lemma create_spei_recipient_lookups (cl nm : String) (rfc : Option String) :
    (create_spei_recipient cl nm rfc).lookup "type" = some (Json.str "spei") ∧
    (create_spei_recipient cl nm rfc).lookup "clabe" = some (Json.str cl) ∧
    (create_spei_recipient cl nm rfc).lookup "name" = some (Json.str nm) ∧
    (create_spei_recipient cl nm rfc).lookup "rfc" =
      (match rfc with
       | some r => if r = "" then none else some (Json.str r)
       | none => none) := by
  rcases rfc with _ | r
  · exact ⟨rfl, rfl, rfl, rfl⟩
  · by_cases hr : r = ""
    · simp only [create_spei_recipient, if_pos hr]
      exact ⟨rfl, rfl, rfl, rfl⟩
    · simp only [create_spei_recipient, if_neg hr]
      exact ⟨rfl, rfl, rfl, rfl⟩

/-- C4 counterexample: a supplied-but-empty optional field is dropped, so
the produced object does not contain the key with the supplied value. -/
theorem recipient_empty_optional_field_dropped :
    (create_pix_recipient "maria@email.com" "email" "Maria Silva"
        (some "")).lookup "tax_id" = none ∧
    (create_spei_recipient "032180000118359719" "Juan Perez"
        (some "")).lookup "rfc" = none :=
  ⟨rfl, rfl⟩

/-- C4 (amended): the mandatory fields are included verbatim; the optional
field (`tax_id` / `rfc`) is present exactly when the supplied value is
truthy (present and non-empty), and then carries exactly that value. -/
theorem recipient_optional_field_iff_truthy
    (pk pkt nm cl snm : String) (tid rfc : Option String) :
    ((create_pix_recipient pk pkt nm tid).lookup "type" = some (Json.str "pix") ∧
     (create_pix_recipient pk pkt nm tid).lookup "pix_key" = some (Json.str pk) ∧
     (create_pix_recipient pk pkt nm tid).lookup "pix_key_type" = some (Json.str pkt) ∧
     (create_pix_recipient pk pkt nm tid).lookup "name" = some (Json.str nm) ∧
     (create_pix_recipient pk pkt nm tid).lookup "tax_id" =
       (match tid with
        | some t => if t = "" then none else some (Json.str t)
        | none => none)) ∧
    ((create_spei_recipient cl snm rfc).lookup "type" = some (Json.str "spei") ∧
     (create_spei_recipient cl snm rfc).lookup "clabe" = some (Json.str cl) ∧
     (create_spei_recipient cl snm rfc).lookup "name" = some (Json.str snm) ∧
     (create_spei_recipient cl snm rfc).lookup "rfc" =
       (match rfc with
        | some r => if r = "" then none else some (Json.str r)
        | none => none)) :=
  ⟨create_pix_recipient_lookups pk pkt nm tid,
   create_spei_recipient_lookups cl snm rfc⟩

/-- C5 counterexample: a supplied-but-empty idempotency key is dropped
from the payload. -/
theorem settle_payload_empty_idempotency_key_dropped :
    (settle_payload "tok_123" (some "")).lookup "idempotency_key" = none :=
  rfl

/-- C5 (amended): the payload always carries `token` verbatim, and carries
`idempotency_key` exactly when the supplied value is truthy (present and
non-empty), then with exactly that value. -/
theorem settle_payload_idempotency_key_iff_truthy
    (token : String) (idem : Option String) :
    (settle_payload token idem).lookup "token" = some (Json.str token) ∧
    (settle_payload token idem).lookup "idempotency_key" =
      (match idem with
       | some k => if k = "" then none else some (Json.str k)
       | none => none) := by
  rcases idem with _ | k
  · exact ⟨rfl, rfl⟩
  · by_cases hk : k = ""
    · simp only [settle_payload, if_pos hk]
      exact ⟨rfl, rfl⟩
    · simp only [settle_payload, if_neg hk]
      exact ⟨rfl, rfl⟩

/-- C6 counterexample: a supplied-but-empty metadata dict is dropped from
the payload. -/
theorem acquire_token_payload_empty_metadata_dropped :
    (acquire_token_payload "pix" (Json.num 100) "USD" (Json.obj [])
        (some [])).lookup "metadata" = none :=
  rfl

/-- C6 (amended): corridor, amount, currency and recipient are passed into
the payload unchanged; `metadata` is present exactly when the supplied
value is truthy (present and a non-empty dict), then verbatim. -/
theorem acquire_token_payload_metadata_iff_truthy
    (corridor currency : String) (amount recipient : Json)
    (metadata : Option (List (String × Json))) :
    (acquire_token_payload corridor amount currency recipient metadata).lookup
        "corridor" = some (Json.str corridor) ∧
    (acquire_token_payload corridor amount currency recipient metadata).lookup
        "amount" = some amount ∧
    (acquire_token_payload corridor amount currency recipient metadata).lookup
        "currency" = some (Json.str currency) ∧
    (acquire_token_payload corridor amount currency recipient metadata).lookup
        "recipient" = some recipient ∧
    (acquire_token_payload corridor amount currency recipient metadata).lookup
        "metadata" =
      (match metadata with
       | some m => if m.isEmpty then none else some (Json.obj m)
       | none => none) := by
  rcases metadata with _ | m
  · exact ⟨rfl, rfl, rfl, rfl, rfl⟩
  · cases m
    · exact ⟨rfl, rfl, rfl, rfl, rfl⟩
    · exact ⟨rfl, rfl, rfl, rfl, rfl⟩

/-! ### Claim theorems: HTTP error propagation and client state -/

/-- The shared method tail raises exactly for 4xx/5xx status codes and
returns the parsed body unchanged otherwise. -/
lemma http_result_eq (response : HttpResponse) :
    http_result response =
      if 400 ≤ response.status_code ∧ response.status_code < 600 then
        Except.error ⟨response.status_code⟩
      else
        Except.ok response.body := by
  by_cases h : 400 ≤ response.status_code ∧ response.status_code < 600
  · simp [http_result, raise_for_status, h]
  · simp [http_result, raise_for_status, h]

/-- C7 counterexample: a 304 response is not a 2xx status, yet
`raise_for_status` does not raise on it — `get_quote` returns the parsed
body instead of raising `HttpError`. -/
theorem get_quote_304_not_raised :
    ((PayOSUCPClient.init "pk_test_key" "https://api.payos.com").get_quote
        "pix" (Json.num 100) "USD" ⟨304, Json.null⟩).2.1 = Except.ok Json.null ∧
    ¬ (200 ≤ 304 ∧ 304 < 300) :=
  ⟨rfl, by decide⟩

/-- C7 (amended): every client operation raises `HttpError` exactly when
the remote response's status code is in the 4xx/5xx range (400–599),
propagating the error unmodified; on any other status it returns the
parsed response body unchanged — nothing is swallowed or retried. -/
theorem client_ops_raise_iff_4xx_5xx (self : PayOSUCPClient)
    (corridor currency settlement_id token : String) (amount recipient : Json)
    (idem : Option String) (metadata : Option (List (String × Json)))
    (response : HttpResponse) :
    (self.get_quote corridor amount currency response).2.1 =
      (if 400 ≤ response.status_code ∧ response.status_code < 600 then
        Except.error ⟨response.status_code⟩ else Except.ok response.body) ∧
    (self.acquire_token corridor amount currency recipient metadata response).2.1 =
      (if 400 ≤ response.status_code ∧ response.status_code < 600 then
        Except.error ⟨response.status_code⟩ else Except.ok response.body) ∧
    (self.settle token idem response).2.1 =
      (if 400 ≤ response.status_code ∧ response.status_code < 600 then
        Except.error ⟨response.status_code⟩ else Except.ok response.body) ∧
    (self.get_settlement_status settlement_id response).2.1 =
      (if 400 ≤ response.status_code ∧ response.status_code < 600 then
        Except.error ⟨response.status_code⟩ else Except.ok response.body) :=
  ⟨http_result_eq response, http_result_eq response,
   http_result_eq response, http_result_eq response⟩

/-- C8: every operation leaves the client's configuration (api_key,
base_url, headers) exactly as it was: the state component returned by each
method is the very client it was called on. -/
theorem client_config_read_only (self : PayOSUCPClient)
    (corridor currency settlement_id token : String) (amount recipient : Json)
    (idem : Option String) (metadata : Option (List (String × Json)))
    (response : HttpResponse) (polls : Nat → SettlementRecord) (maxWait : Int) :
    (self.get_quote corridor amount currency response).2.2 = self ∧
    (self.acquire_token corridor amount currency recipient metadata response).2.2 = self ∧
    (self.settle token idem response).2.2 = self ∧
    (self.get_settlement_status settlement_id response).2.2 = self ∧
    (self.wait_for_completion polls maxWait).2 = self :=
  ⟨rfl, rfl, rfl, rfl, rfl⟩
